import Mathlib

/-!
Shallow embedding of the porto container supervisor core
(rpc.cpp, subsystem.cpp, qdisc.cpp, property.hpp) together with
theorems settling the specification claims about it.

Machine strings stay `String`, kernel collaborators (cgroup knobs,
netlink, the container/volume holders) are abstracted as function-valued
parameters or structure fields, and fallible C++ code is embedded with
`Except`.  Definitions mirror the source files; where a helper's body is
not part of the sources its model is marked `Modelled from the spec:`.
-/

set_option autoImplicit false

/-- The closed error-kind enumeration of the daemon (spec section 7). -/
inductive EError where
  | Success
  | Unknown
  | InvalidMethod
  | InvalidValue
  | InvalidState
  | ContainerDoesNotExist
  | ContainerAlreadyExists
  | PermissionDenied
  | NotFound
  | Busy
  | Storage
  | Corrupted
  | FreezerTimeout
  | VolumeDoesNotExist
  deriving DecidableEq, Repr

/-- `TError`: an error kind plus a human readable message. -/
structure TError where
  error : EError
  msg : String
  deriving DecidableEq, Repr

/-- `TError::Success()` — the distinguished success value. -/
def TError.Success : TError := ⟨EError.Success, ""⟩

/-- The C++ `operator bool` of `TError`: true iff the kind is not `Success`. -/
def TError.isError (e : TError) : Bool := e.error != EError.Success

/-- Peer credential; only `IsPrivileged()` is consulted by the RPC layer. -/
structure TCred where
  IsPrivileged : Bool


/-! ### Freezer subsystem (subsystem.cpp) -/

/-- Modelled from the spec: the freezer wait bound constant (declared outside
the given sources); the spec fixes the default timeout at 60 seconds. -/
def FREEZER_WAIT_TIMEOUT_S : Nat := 60

/-- Helper for `RetryFailed`: attempt index `i`, remaining attempts `n`;
true iff every remaining attempt reports failure. -/
def RetryFailedGo (handler : Nat → Bool) (i : Nat) : Nat → Bool
  | 0 => true
  | n + 1 => handler i && RetryFailedGo handler (i + 1) n

/-- Modelled from the spec: `RetryFailed` (declared in util/unix.hpp, body not
under src/) is "a bounded retry with fixed interval": run the handler up to
`times` times, sleeping `timeoMs` milliseconds between attempts, stopping as
soon as the handler reports success (returns false); the result is nonzero
(true) iff the handler still failed when the bound was exhausted.  The sleep
has no observable effect in the embedding; the handler is indexed by the
attempt number so that a time-varying kernel knob can be modelled. -/
def RetryFailed (times : Nat) (timeoMs : Nat) (handler : Nat → Bool) : Bool :=
  let _ := timeoMs
  RetryFailedGo handler 0 times

/-- The string observed by one `GetKnobValue` poll of `freezer.state`:
on a read error the output parameter keeps its empty initial value. -/
def knobValue (readKnob : Nat → Except TError String) (i : Nat) : String :=
  match readKnob i with
  | .ok s => s
  | .error _ => ""

/-- `TFreezerSubsystem::WaitState`: poll `freezer.state` (the read at attempt
`i` is `readKnob i`) with `RetryFailed (FREEZER_WAIT_TIMEOUT_S * 10) 100`
until the observed string equals `state`; on exhaustion return an `Unknown`
error (read errors are only logged). -/
def TFreezerSubsystem.WaitState (readKnob : Nat → Except TError String)
    (state : String) : TError :=
  let ret := RetryFailed (FREEZER_WAIT_TIMEOUT_S * 10) 100 (fun i =>
    knobValue readKnob i != state)
  if ret then
    ⟨EError.Unknown, "Can't wait for freezer state " ++ state⟩
  else
    TError.Success

/-- `TFreezerSubsystem::Freeze`: write `FROZEN` to `freezer.state`,
then wait for the observed state string `"FROZEN\n"`. -/
def TFreezerSubsystem.Freeze (setKnob : String → String → TError)
    (readKnob : Nat → Except TError String) : TError :=
  let error := setKnob "freezer.state" "FROZEN"
  if error.isError then error
  else TFreezerSubsystem.WaitState readKnob "FROZEN\n"

/-- `TFreezerSubsystem::Unfreeze`: write `THAWED` to `freezer.state`,
then wait for the observed state string `"THAWED\n"`. -/
def TFreezerSubsystem.Unfreeze (setKnob : String → String → TError)
    (readKnob : Nat → Except TError String) : TError :=
  let error := setKnob "freezer.state" "THAWED"
  if error.isError then error
  else TFreezerSubsystem.WaitState readKnob "THAWED\n"


/-! ### Subsystem registry (subsystem.cpp) -/

/-- The dynamic type of the adapter object the factory constructs.
`TCpuacctSubsystem` exists in the source (its `Usage` method parses
`cpuacct.usage`) but, as proved below, is never constructed by `Get`. -/
inductive TSubsystemKind where
  | generic (name : String)
  | memory
  | freezer
  | cpu
  | cpuacct
  deriving DecidableEq, Repr

/-- `TSubsystem::Get`: memoising factory over the global `subsystems` map
(threaded explicitly).  On a miss it constructs the specialised adapter for
`memory`, `freezer` and `cpu`, and the generic `TSubsystem(name)` otherwise;
the map entry is then returned. -/
def TSubsystem.Get (subsystems : List (String × TSubsystemKind)) (name : String) :
    List (String × TSubsystemKind) × TSubsystemKind :=
  match subsystems.lookup name with
  | some s => (subsystems, s)
  | none =>
    let s : TSubsystemKind :=
      if name = "memory" then .memory
      else if name = "freezer" then .freezer
      else if name = "cpu" then .cpu
      else .generic name
    ((name, s) :: subsystems, s)


/-! ### Traffic-control adapter (qdisc.cpp)

The kernel netlink collaborators (`TNlHtb`, `TNlClass`, `TNlCgFilter`) are
abstracted by `TcKernel`: per-link result functions for each netlink call.
Each operation returns, besides the source's `TError`, the list of kernel
interactions it performed (`TcAction`), so that "performs no kernel mutation
or read" is expressible.  For `remove`, which consults `Exists`, the current
per-link presence of the entity is threaded as a list of link names. -/

/-- One kernel traffic-control interaction (a netlink mutation or read). -/
inductive TcAction where
  | qdiscCreate (link : String)
  | qdiscRemove (link : String)
  | classCreate (link : String)
  | classRemove (link : String)
  | classExistsQ (link : String)
  | classStat (link : String)
  | filterCreate (link : String)
  | filterRemove (link : String)
  | filterExistsQ (link : String)
  deriving DecidableEq, Repr

/-- Results of the kernel netlink calls, per link name. -/
structure TcKernel where
  qdiscCreateRes : String → TError
  qdiscRemoveRes : String → TError
  classCreateRes : String → Nat → Nat → Nat → TError
  classRemoveRes : String → TError
  classStatRes : String → TError × Nat
  filterCreateRes : String → TError
  filterRemoveRes : String → TError

/-- Loop of `TTclass::Create`: per link, `TNlClass(...).Create(prio, rate,
ceil)`; stop at the first error. -/
def TTclass.CreateGo (k : TcKernel) (prio rate ceil : Nat) :
    List String → TError × List TcAction
  | [] => (TError.Success, [])
  | l :: rest =>
    let e := k.classCreateRes l prio rate ceil
    if e.isError then (e, [.classCreate l])
    else
      let (e2, as) := TTclass.CreateGo k prio rate ceil rest
      (e2, .classCreate l :: as)

/-- `TTclass::Create`: a successful no-op when networking is disabled,
otherwise install the HTB class on every link. -/
def TTclass.Create (enabled : Bool) (links : List String) (k : TcKernel)
    (prio rate ceil : Nat) : TError × List TcAction :=
  if !enabled then (TError.Success, [])
  else TTclass.CreateGo k prio rate ceil links

/-- Loop of `TTclass::Remove`: per link, if `Exists(link)` is false return
success immediately; otherwise `TNlClass(...).Remove()`.  `present` is the
set (list) of links on which the class currently exists; a successful kernel
remove deletes the link from it. -/
def TTclass.RemoveGo (k : TcKernel) :
    List String → List String → TError × List String × List TcAction
  | [], present => (TError.Success, present, [])
  | l :: rest, present =>
    if !(present.contains l) then (TError.Success, present, [.classExistsQ l])
    else
      let e := k.classRemoveRes l
      if e.isError then (e, present, [.classExistsQ l, .classRemove l])
      else
        let r := TTclass.RemoveGo k rest (present.erase l)
        (r.1, r.2.1, .classExistsQ l :: .classRemove l :: r.2.2)

/-- `TTclass::Remove`: a successful no-op when networking is disabled,
otherwise run the exists-guarded removal loop over the links. -/
def TTclass.Remove (enabled : Bool) (links : List String) (k : TcKernel)
    (present : List String) : TError × List String × List TcAction :=
  if !enabled then (TError.Success, present, [])
  else TTclass.RemoveGo k links present

/-- Loop of `TTclass::GetStat`: per link read the counter; stop at the first
error, otherwise record `m[link] = val`. -/
def TTclass.GetStatGo (k : TcKernel) :
    List String → List (String × Nat) → TError × List (String × Nat) × List TcAction
  | [], m => (TError.Success, m, [])
  | l :: rest, m =>
    let (e, val) := k.classStatRes l
    if e.isError then (e, m, [.classStat l])
    else
      let (e2, m2, as) := TTclass.GetStatGo k rest (m ++ [(l, val)])
      (e2, m2, .classStat l :: as)

/-- `TTclass::GetStat`: when networking is disabled it returns the error
`Unknown, "Network support is disabled"` (not success); otherwise it reads
the per-link counters into the map. -/
def TTclass.GetStat (enabled : Bool) (links : List String) (k : TcKernel) :
    TError × List (String × Nat) × List TcAction :=
  if !enabled then (⟨EError.Unknown, "Network support is disabled"⟩, [], [])
  else TTclass.GetStatGo k links []

/-- Loop of `TQdisc::Create`: per link `TNlHtb(...).Create(DefClass)`. -/
def TQdisc.CreateGo (k : TcKernel) : List String → TError × List TcAction
  | [] => (TError.Success, [])
  | l :: rest =>
    let e := k.qdiscCreateRes l
    if e.isError then (e, [.qdiscCreate l])
    else
      let (e2, as) := TQdisc.CreateGo k rest
      (e2, .qdiscCreate l :: as)

/-- `TQdisc::Create`: successful no-op when disabled. -/
def TQdisc.Create (enabled : Bool) (links : List String) (k : TcKernel) :
    TError × List TcAction :=
  if !enabled then (TError.Success, [])
  else TQdisc.CreateGo k links

/-- Loop of `TQdisc::Remove`: per link `TNlHtb(...).Remove()` (no
exists-guard in the source). -/
def TQdisc.RemoveGo (k : TcKernel) : List String → TError × List TcAction
  | [] => (TError.Success, [])
  | l :: rest =>
    let e := k.qdiscRemoveRes l
    if e.isError then (e, [.qdiscRemove l])
    else
      let (e2, as) := TQdisc.RemoveGo k rest
      (e2, .qdiscRemove l :: as)

/-- `TQdisc::Remove`: successful no-op when disabled. -/
def TQdisc.Remove (enabled : Bool) (links : List String) (k : TcKernel) :
    TError × List TcAction :=
  if !enabled then (TError.Success, [])
  else TQdisc.RemoveGo k links

/-- Loop of `TFilter::Create`: per link `TNlCgFilter(...).Create()`. -/
def TFilter.CreateGo (k : TcKernel) : List String → TError × List TcAction
  | [] => (TError.Success, [])
  | l :: rest =>
    let e := k.filterCreateRes l
    if e.isError then (e, [.filterCreate l])
    else
      let (e2, as) := TFilter.CreateGo k rest
      (e2, .filterCreate l :: as)

/-- `TFilter::Create`: successful no-op when disabled. -/
def TFilter.Create (enabled : Bool) (links : List String) (k : TcKernel) :
    TError × List TcAction :=
  if !enabled then (TError.Success, [])
  else TFilter.CreateGo k links

/-- Loop of `TFilter::Remove`: per link, early success return when
`Exists(link)` is false, like `TTclass::Remove`. -/
def TFilter.RemoveGo (k : TcKernel) :
    List String → List String → TError × List String × List TcAction
  | [], present => (TError.Success, present, [])
  | l :: rest, present =>
    if !(present.contains l) then (TError.Success, present, [.filterExistsQ l])
    else
      let e := k.filterRemoveRes l
      if e.isError then (e, present, [.filterExistsQ l, .filterRemove l])
      else
        let (e2, p2, as) := TFilter.RemoveGo k rest (present.erase l)
        (e2, p2, .filterExistsQ l :: .filterRemove l :: as)

/-- `TFilter::Remove`: successful no-op when disabled. -/
def TFilter.Remove (enabled : Bool) (links : List String) (k : TcKernel)
    (present : List String) : TError × List String × List TcAction :=
  if !enabled then (TError.Success, present, [])
  else TFilter.RemoveGo k links present


/-! ### Property value system (property.hpp)

A container's chain, for a fixed property, is the list of per-container
slots from the container itself up through its ancestors (head = self,
tail = parent chain; the list is empty only above the root).  A slot is
`none` when the value is *default* and `some s` when an explicit string
form `s` is stored. -/

/-- The descriptor fields the typed accessors consult: the
`PARENT_DEF_PROPERTY` flag bit and the static default string form. -/
structure TValueDesc where
  parentDef : Bool
  defaultStr : String
  deriving DecidableEq, Repr

/-- Modelled from the spec: `TVariantSet::Get<NAME>(property, value)` (body
not under src/) parses the stored string form — `get_raw` returns the stored
string or the descriptor's static default, "not the parent's" — into the
target type; on a parse error the logged error leaves the zero-initialised
`value{}` untouched. -/
def VariantGetTyped {α : Type} (parse : String → Option α) (zero : α)
    (desc : TValueDesc) (slot : Option String) : α :=
  match parse (slot.getD desc.defaultStr) with
  | some v => v
  | none => zero

/-- `SYNTHESIZE_ACCESSOR(NAME, TYPE)`: if the slot is *default* and
`ParentDefault` holds (modelled from the spec: the descriptor carries
*parent-default* and the container is not the root, i.e. an ancestor
exists), delegate to the parent's accessor; otherwise parse the stored or
static-default string, returning the zero value on a parse error. -/
def GetTyped {α : Type} (parse : String → Option α) (zero : α)
    (desc : TValueDesc) : List (Option String) → α
  | [] => zero
  | slot :: ancestors =>
    if slot.isNone && desc.parentDef && !ancestors.isEmpty then
      GetTyped parse zero desc ancestors
    else
      VariantGetTyped parse zero desc slot

/-- String values parse trivially. -/
def parseString (s : String) : Option String := some s

/-- Modelled from the spec: boolean string form, `"true"` / `"false"`. -/
def parseBool (s : String) : Option Bool :=
  if s = "true" then some true
  else if s = "false" then some false
  else none

/-- Modelled from the spec: signed decimal parse (`StringToInt`). -/
def parseInt (s : String) : Option Int := s.toInt?

/-- Modelled from the spec: unsigned decimal parse (`StringToUint64`). -/
def parseUint (s : String) : Option Nat := s.toNat?

/-- `TPropertyHolder::GetString`. -/
def TPropertyHolder.GetString (desc : TValueDesc) (chain : List (Option String)) :
    String :=
  GetTyped parseString "" desc chain

/-- `TPropertyHolder::GetBool`. -/
def TPropertyHolder.GetBool (desc : TValueDesc) (chain : List (Option String)) :
    Bool :=
  GetTyped parseBool false desc chain

/-- `TPropertyHolder::GetInt`. -/
def TPropertyHolder.GetInt (desc : TValueDesc) (chain : List (Option String)) :
    Int :=
  GetTyped parseInt 0 desc chain

/-- `TPropertyHolder::GetUint`. -/
def TPropertyHolder.GetUint (desc : TValueDesc) (chain : List (Option String)) :
    Nat :=
  GetTyped parseUint 0 desc chain

/-- Spec-side: the nearest explicit slot in an ancestor chain. -/
def nearestExplicit : List (Option String) → Option String
  | [] => none
  | some v :: _ => some v
  | none :: rest => nearestExplicit rest

/-- Spec-side: the string form a typed accessor should parse, following the
claim's words: an explicit own slot wins; a default slot with *parent-default*
takes the nearest ancestor's explicit value; otherwise the static default. -/
def specStored (desc : TValueDesc) : List (Option String) → String
  | [] => desc.defaultStr
  | some v :: _ => v
  | none :: ancestors =>
    if desc.parentDef then (nearestExplicit ancestors).getD desc.defaultStr
    else desc.defaultStr

/-- Spec-side typed accessor: parse `specStored`, zero on parse error. -/
def specGetTyped {α : Type} (parse : String → Option α) (zero : α)
    (desc : TValueDesc) (chain : List (Option String)) : α :=
  match parse (specStored desc chain) with
  | some v => v
  | none => zero


/-! ### Registry enumeration (rpc.cpp ListProperty / ListData) -/

/-- One registry descriptor as the enumeration handlers see it: name,
human description, and the `HIDDEN_VALUE` flag bit (modelled from the spec:
the flag constant lives in value.hpp, which is not under src/). -/
structure TValueDescEntry where
  name : String
  desc : String
  hidden : Bool
  deriving DecidableEq, Repr

/-- The loop shared by `ListProperty` and `ListData`: walk the registry in
insertion order, skip descriptors with `HIDDEN_VALUE`, and emit
`(name, desc)` for the rest. -/
def enumerateNonHidden : List TValueDescEntry → List (String × String)
  | [] => []
  | e :: rest =>
    if e.hidden then enumerateNonHidden rest
    else (e.name, e.desc) :: enumerateNonHidden rest

/-- Spec-side: the non-hidden descriptors of a registry, in order, as
`(name, description)` pairs, stated with filter and map. -/
def specEnumerate (reg : List TValueDescEntry) : List (String × String) :=
  (reg.filter (fun e => !e.hidden)).map (fun e => (e.name, e.desc))


/-! ### RPC dispatcher (rpc.cpp)

The protobuf request is a record of optional variant payloads (`none` =
`has_x()` false).  The container/volume holders and the per-container
operations are abstract collaborators carried in `TContext`; each fallible
collaborator call returns `Except Fault _`, where a `Fault` is either one of
the C++ exception categories the dispatcher catches, or undefined behaviour
(a null-pointer dereference), which no `catch` clause intercepts. -/

/-- An unanticipated fault inside a handler. -/
inductive Fault where
  | badAlloc
  | thrownString (s : String)
  | stdException (what : String)
  | otherExc
  | undefinedBehaviour (what : String)
  deriving DecidableEq, Repr

/-- True for the faults that are C++ exceptions, i.e. those the dispatcher's
catch clauses intercept; undefined behaviour is not an exception. -/
def Fault.isException : Fault → Bool
  | .undefinedBehaviour _ => false
  | _ => true

/-- Spec-side: the textual message the dispatcher derives from a fault. -/
def faultMsg : Fault → String
  | .badAlloc => "memory allocation failure"
  | .thrownString s => s
  | .stdException what => what
  | .otherExc => "unknown error"
  | .undefinedBehaviour what => what

structure TContainerCreateRequest where
  name : String

structure TContainerDestroyRequest where
  name : String

structure TContainerGetPropertyRequest where
  name : String
  property : String

structure TContainerSetPropertyRequest where
  name : String
  property : String
  value : String

structure TContainerGetDataRequest where
  name : String
  data : String

structure TContainerStartRequest where
  name : String

structure TContainerStopRequest where
  name : String

structure TContainerPauseRequest where
  name : String

structure TContainerResumeRequest where
  name : String

structure TContainerKillRequest where
  name : String
  sig : Int

structure TVolumeCreateRequest where
  name : String
  source : String
  quota : String
  flags : String

structure TVolumeDestroyRequest where
  name : String

/-- `rpc::TContainerRequest`: the one-of over the seventeen variants.
Variants whose message carries no field are plain `Bool` presence bits. -/
structure TContainerRequest where
  create : Option TContainerCreateRequest := none
  destroy : Option TContainerDestroyRequest := none
  list : Bool := false
  getproperty : Option TContainerGetPropertyRequest := none
  setproperty : Option TContainerSetPropertyRequest := none
  getdata : Option TContainerGetDataRequest := none
  start : Option TContainerStartRequest := none
  stop : Option TContainerStopRequest := none
  pause : Option TContainerPauseRequest := none
  resume : Option TContainerResumeRequest := none
  propertylist : Bool := false
  datalist : Bool := false
  kill : Option TContainerKillRequest := none
  version : Bool := false
  createvolume : Option TVolumeCreateRequest := none
  destroyvolume : Option TVolumeDestroyRequest := none
  listvolumes : Bool := false

/-- One entry of the `volumelist` payload: name, source, quota, flags. -/
structure TVolumeDescription where
  name : String
  source : String
  quota : String
  flags : String
  deriving DecidableEq, Repr

/-- `rpc::TContainerResponse`: the common error pair plus the optional typed
payloads (`none` = payload message absent). -/
structure TContainerResponse where
  error : EError := EError.Success
  errorMsg : String := ""
  list : Option (List String) := none
  getproperty : Option String := none
  getdata : Option String := none
  propertylist : Option (List (String × String)) := none
  datalist : Option (List (String × String)) := none
  version : Option (String × String) := none
  volumelist : Option (List TVolumeDescription) := none
  deriving DecidableEq, Repr

/-- A freshly default-constructed (or `Clear()`-ed) response. -/
def TContainerResponse.empty : TContainerResponse := {}

/-- Spec-side: a response with its error pair stamped, payloads from `rsp`. -/
def errorResponse (rsp : TContainerResponse) (e : EError) (msg : String) :
    TContainerResponse :=
  { rsp with error := e, errorMsg := msg }

/-- A container as the RPC handlers see it: permission check and the
lifecycle / property operations, each allowed to raise a fault. -/
structure TContainer where
  checkPermission : TCred → TError
  startOp : Except Fault TError
  stopOp : Except Fault TError
  pauseOp : Except Fault TError
  resumeOp : Except Fault TError
  killOp : Int → Except Fault TError
  getPropertyOp : String → Except Fault (TError × String)
  setPropertyOp : String → String → Bool → Except Fault TError
  getDataOp : String → Except Fault (TError × String)

/-- A volume as `DestroyVolume` sees it. -/
structure TVolume where
  getName : String
  checkPermission : TCred → TError
  destroyOp : Except Fault TError

/-- `TContext`: the container holder, the volume holder, the two global
value registries and the build version strings, abstracted. -/
structure TContext where
  cholderGet : String → Option TContainer
  cholderCreate : String → TCred → Except Fault TError
  cholderDestroy : String → Except Fault TError
  cholderList : List String
  propertySet : List TValueDescEntry
  dataSet : List TValueDescEntry
  vholderGet : String → Option TVolume
  volumeCreate : TVolumeCreateRequest → TCred → Except Fault TError
  vholderDescriptions : List TVolumeDescription
  gitTag : String
  gitRevision : String

/-- `CreateContainer` (rpc.cpp): existing name is `ContainerAlreadyExists`,
otherwise `Cholder->Create(name, cred)`. -/
def CreateContainer (context : TContext) (req : TContainerCreateRequest)
    (rsp : TContainerResponse) (cred : TCred) :
    Except Fault (TError × TContainerResponse) :=
  match context.cholderGet req.name with
  | some _ => .ok (⟨EError.ContainerAlreadyExists, "invalid name"⟩, rsp)
  | none => (context.cholderCreate req.name cred).map (fun e => (e, rsp))

/-- `DestroyContainer` (rpc.cpp): if the container resolves, check
permission first; in every non-error case call `Cholder->Destroy(name)`. -/
def DestroyContainer (context : TContext) (req : TContainerDestroyRequest)
    (rsp : TContainerResponse) (cred : TCred) :
    Except Fault (TError × TContainerResponse) :=
  match context.cholderGet req.name with
  | some c =>
    let e := c.checkPermission cred
    if e.isError then .ok (e, rsp)
    else (context.cholderDestroy req.name).map (fun e => (e, rsp))
  | none => (context.cholderDestroy req.name).map (fun e => (e, rsp))

/-- `StartContainer` (rpc.cpp). -/
def StartContainer (context : TContext) (req : TContainerStartRequest)
    (rsp : TContainerResponse) (cred : TCred) :
    Except Fault (TError × TContainerResponse) :=
  match context.cholderGet req.name with
  | none => .ok (⟨EError.ContainerDoesNotExist, "invalid name"⟩, rsp)
  | some c =>
    let e := c.checkPermission cred
    if e.isError then .ok (e, rsp)
    else c.startOp.map (fun e => (e, rsp))

/-- `StopContainer` (rpc.cpp). -/
def StopContainer (context : TContext) (req : TContainerStopRequest)
    (rsp : TContainerResponse) (cred : TCred) :
    Except Fault (TError × TContainerResponse) :=
  match context.cholderGet req.name with
  | none => .ok (⟨EError.ContainerDoesNotExist, "invalid name"⟩, rsp)
  | some c =>
    let e := c.checkPermission cred
    if e.isError then .ok (e, rsp)
    else c.stopOp.map (fun e => (e, rsp))

/-- `PauseContainer` (rpc.cpp). -/
def PauseContainer (context : TContext) (req : TContainerPauseRequest)
    (rsp : TContainerResponse) (cred : TCred) :
    Except Fault (TError × TContainerResponse) :=
  match context.cholderGet req.name with
  | none => .ok (⟨EError.ContainerDoesNotExist, "invalid name"⟩, rsp)
  | some c =>
    let e := c.checkPermission cred
    if e.isError then .ok (e, rsp)
    else c.pauseOp.map (fun e => (e, rsp))

/-- `ResumeContainer` (rpc.cpp). -/
def ResumeContainer (context : TContext) (req : TContainerResumeRequest)
    (rsp : TContainerResponse) (cred : TCred) :
    Except Fault (TError × TContainerResponse) :=
  match context.cholderGet req.name with
  | none => .ok (⟨EError.ContainerDoesNotExist, "invalid name"⟩, rsp)
  | some c =>
    let e := c.checkPermission cred
    if e.isError then .ok (e, rsp)
    else c.resumeOp.map (fun e => (e, rsp))

/-- `ListContainers` (rpc.cpp): `rsp.mutable_list()` filled from
`Cholder->List()`. -/
def ListContainers (context : TContext) (rsp : TContainerResponse) :
    Except Fault (TError × TContainerResponse) :=
  .ok (TError.Success, { rsp with list := some context.cholderList })

/-- `GetContainerProperty` (rpc.cpp): the `getproperty` payload is set only
when `GetProperty` returned no error. -/
def GetContainerProperty (context : TContext)
    (req : TContainerGetPropertyRequest) (rsp : TContainerResponse)
    (cred : TCred) : Except Fault (TError × TContainerResponse) :=
  match context.cholderGet req.name with
  | none => .ok (⟨EError.ContainerDoesNotExist, "invalid name"⟩, rsp)
  | some c =>
    (c.getPropertyOp req.property).map (fun ev =>
      if ev.1.isError then (ev.1, rsp)
      else (ev.1, { rsp with getproperty := some ev.2 }))

/-- `SetContainerProperty` (rpc.cpp). -/
def SetContainerProperty (context : TContext)
    (req : TContainerSetPropertyRequest) (rsp : TContainerResponse)
    (cred : TCred) : Except Fault (TError × TContainerResponse) :=
  match context.cholderGet req.name with
  | none => .ok (⟨EError.ContainerDoesNotExist, "invalid name"⟩, rsp)
  | some c =>
    let e := c.checkPermission cred
    if e.isError then .ok (e, rsp)
    else (c.setPropertyOp req.property req.value cred.IsPrivileged).map
      (fun e => (e, rsp))

/-- `GetContainerData` (rpc.cpp): the `getdata` payload is set only when
`GetData` returned no error. -/
def GetContainerData (context : TContext) (req : TContainerGetDataRequest)
    (rsp : TContainerResponse) (cred : TCred) :
    Except Fault (TError × TContainerResponse) :=
  match context.cholderGet req.name with
  | none => .ok (⟨EError.ContainerDoesNotExist, "invalid name"⟩, rsp)
  | some c =>
    (c.getDataOp req.data).map (fun ev =>
      if ev.1.isError then (ev.1, rsp)
      else (ev.1, { rsp with getdata := some ev.2 }))

/-- `ListProperty` (rpc.cpp): enumerate the property registry, skipping
`HIDDEN_VALUE` descriptors. -/
def ListProperty (context : TContext) (rsp : TContainerResponse) :
    Except Fault (TError × TContainerResponse) :=
  .ok (TError.Success,
    { rsp with propertylist := some (enumerateNonHidden context.propertySet) })

/-- `ListData` (rpc.cpp): enumerate the data registry, skipping
`HIDDEN_VALUE` descriptors. -/
def ListData (context : TContext) (rsp : TContainerResponse) :
    Except Fault (TError × TContainerResponse) :=
  .ok (TError.Success,
    { rsp with datalist := some (enumerateNonHidden context.dataSet) })

/-- `Kill` (rpc.cpp). -/
def Kill (context : TContext) (req : TContainerKillRequest)
    (rsp : TContainerResponse) (cred : TCred) :
    Except Fault (TError × TContainerResponse) :=
  match context.cholderGet req.name with
  | none => .ok (⟨EError.ContainerDoesNotExist, "invalid name"⟩, rsp)
  | some c =>
    let e := c.checkPermission cred
    if e.isError then .ok (e, rsp)
    else (c.killOp req.sig).map (fun e => (e, rsp))

/-- `Version` (rpc.cpp): the build tag and revision strings. -/
def Version (context : TContext) (rsp : TContainerResponse) :
    Except Fault (TError × TContainerResponse) :=
  .ok (TError.Success,
    { rsp with version := some (context.gitTag, context.gitRevision) })

/-- `CreateVolume` (rpc.cpp): construct the volume and run its `Create`
(abstracted as one collaborator call). -/
def CreateVolume (context : TContext) (req : TVolumeCreateRequest)
    (rsp : TContainerResponse) (cred : TCred) :
    Except Fault (TError × TContainerResponse) :=
  (context.volumeCreate req cred).map (fun e => (e, rsp))

/-- `DestroyVolume` (rpc.cpp): when the volume resolves, permission check
then `Destroy`.  When it does not, the source formats
`"volume " + volume->GetName() + "doesn't exist"` with `volume` null in that
branch: a null-pointer dereference, embedded as undefined behaviour — the
branch produces no `VolumeDoesNotExist` reply. -/
def DestroyVolume (context : TContext) (req : TVolumeDestroyRequest)
    (rsp : TContainerResponse) (cred : TCred) :
    Except Fault (TError × TContainerResponse) :=
  match context.vholderGet req.name with
  | some v =>
    let e := v.checkPermission cred
    if e.isError then .ok (e, rsp)
    else v.destroyOp.map (fun e => (e, rsp))
  | none =>
    .error (.undefinedBehaviour "DestroyVolume: volume->GetName() on null volume")

/-- `ListVolumes` (rpc.cpp): the per-volume descriptions. -/
def ListVolumes (context : TContext) (rsp : TContainerResponse) :
    Except Fault (TError × TContainerResponse) :=
  .ok (TError.Success, { rsp with volumelist := some context.vholderDescriptions })

/-- The seventeen RPC methods, in the dispatcher's chain order. -/
inductive RpcMethod where
  | create | destroy | list | getproperty | setproperty | getdata
  | start | stop | pause | resume | propertylist | datalist
  | kill | version | createvolume | destroyvolume | listvolumes
  deriving DecidableEq, Repr

/-- Spec-side: the set variants of a request, listed in chain order. -/
def requestVariants (req : TContainerRequest) : List RpcMethod :=
  (if req.create.isSome then [RpcMethod.create] else []) ++
  ((if req.destroy.isSome then [RpcMethod.destroy] else []) ++
  ((if req.list then [RpcMethod.list] else []) ++
  ((if req.getproperty.isSome then [RpcMethod.getproperty] else []) ++
  ((if req.setproperty.isSome then [RpcMethod.setproperty] else []) ++
  ((if req.getdata.isSome then [RpcMethod.getdata] else []) ++
  ((if req.start.isSome then [RpcMethod.start] else []) ++
  ((if req.stop.isSome then [RpcMethod.stop] else []) ++
  ((if req.pause.isSome then [RpcMethod.pause] else []) ++
  ((if req.resume.isSome then [RpcMethod.resume] else []) ++
  ((if req.propertylist then [RpcMethod.propertylist] else []) ++
  ((if req.datalist then [RpcMethod.datalist] else []) ++
  ((if req.kill.isSome then [RpcMethod.kill] else []) ++
  ((if req.version then [RpcMethod.version] else []) ++
  ((if req.createvolume.isSome then [RpcMethod.createvolume] else []) ++
  ((if req.destroyvolume.isSome then [RpcMethod.destroyvolume] else []) ++
  (if req.listvolumes then [RpcMethod.listvolumes] else []))))))))))))))))


/-- The `try` block of `HandleRpcRequest`: the `if (req.has_...())` chain.
The third component is `send_reply`, which the successful volume
create/destroy paths lower to `false`. -/
def dispatchBody (context : TContext) (req : TContainerRequest)
    (rsp : TContainerResponse) (cred : TCred) :
    Except Fault (TError × TContainerResponse × Bool) :=
  match req.create with
  | some r => (CreateContainer context r rsp cred).map (fun er => (er.1, er.2, true))
  | none =>
  match req.destroy with
  | some r => (DestroyContainer context r rsp cred).map (fun er => (er.1, er.2, true))
  | none =>
  if req.list then (ListContainers context rsp).map (fun er => (er.1, er.2, true))
  else
  match req.getproperty with
  | some r => (GetContainerProperty context r rsp cred).map (fun er => (er.1, er.2, true))
  | none =>
  match req.setproperty with
  | some r => (SetContainerProperty context r rsp cred).map (fun er => (er.1, er.2, true))
  | none =>
  match req.getdata with
  | some r => (GetContainerData context r rsp cred).map (fun er => (er.1, er.2, true))
  | none =>
  match req.start with
  | some r => (StartContainer context r rsp cred).map (fun er => (er.1, er.2, true))
  | none =>
  match req.stop with
  | some r => (StopContainer context r rsp cred).map (fun er => (er.1, er.2, true))
  | none =>
  match req.pause with
  | some r => (PauseContainer context r rsp cred).map (fun er => (er.1, er.2, true))
  | none =>
  match req.resume with
  | some r => (ResumeContainer context r rsp cred).map (fun er => (er.1, er.2, true))
  | none =>
  if req.propertylist then (ListProperty context rsp).map (fun er => (er.1, er.2, true))
  else
  if req.datalist then (ListData context rsp).map (fun er => (er.1, er.2, true))
  else
  match req.kill with
  | some r => (Kill context r rsp cred).map (fun er => (er.1, er.2, true))
  | none =>
  if req.version then (Version context rsp).map (fun er => (er.1, er.2, true))
  else
  match req.createvolume with
  | some r =>
    match CreateVolume context r rsp cred with
    | .error f => .error f
    | .ok er => .ok (er.1, er.2, er.1.isError)
  | none =>
  match req.destroyvolume with
  | some r =>
    match DestroyVolume context r rsp cred with
    | .error f => .error f
    | .ok er => .ok (er.1, er.2, er.1.isError)
  | none =>
  if req.listvolumes then (ListVolumes context rsp).map (fun er => (er.1, er.2, true))
  else
    .ok (⟨EError.InvalidMethod, "invalid RPC method"⟩, rsp, true)

/-- Spec-side dispatch table: run the handler of method `m` on the request's
payload for `m` (the protobuf accessor of an absent payload yields the
default message). -/
def runMethod (context : TContext) (m : RpcMethod) (req : TContainerRequest)
    (rsp : TContainerResponse) (cred : TCred) :
    Except Fault (TError × TContainerResponse × Bool) :=
  match m with
  | .create =>
    (CreateContainer context (req.create.getD ⟨""⟩) rsp cred).map
      (fun er => (er.1, er.2, true))
  | .destroy =>
    (DestroyContainer context (req.destroy.getD ⟨""⟩) rsp cred).map
      (fun er => (er.1, er.2, true))
  | .list => (ListContainers context rsp).map (fun er => (er.1, er.2, true))
  | .getproperty =>
    (GetContainerProperty context (req.getproperty.getD ⟨"", ""⟩) rsp cred).map
      (fun er => (er.1, er.2, true))
  | .setproperty =>
    (SetContainerProperty context (req.setproperty.getD ⟨"", "", ""⟩) rsp cred).map
      (fun er => (er.1, er.2, true))
  | .getdata =>
    (GetContainerData context (req.getdata.getD ⟨"", ""⟩) rsp cred).map
      (fun er => (er.1, er.2, true))
  | .start =>
    (StartContainer context (req.start.getD ⟨""⟩) rsp cred).map
      (fun er => (er.1, er.2, true))
  | .stop =>
    (StopContainer context (req.stop.getD ⟨""⟩) rsp cred).map
      (fun er => (er.1, er.2, true))
  | .pause =>
    (PauseContainer context (req.pause.getD ⟨""⟩) rsp cred).map
      (fun er => (er.1, er.2, true))
  | .resume =>
    (ResumeContainer context (req.resume.getD ⟨""⟩) rsp cred).map
      (fun er => (er.1, er.2, true))
  | .propertylist => (ListProperty context rsp).map (fun er => (er.1, er.2, true))
  | .datalist => (ListData context rsp).map (fun er => (er.1, er.2, true))
  | .kill =>
    (Kill context (req.kill.getD ⟨"", 0⟩) rsp cred).map
      (fun er => (er.1, er.2, true))
  | .version => (Version context rsp).map (fun er => (er.1, er.2, true))
  | .createvolume =>
    match CreateVolume context (req.createvolume.getD ⟨"", "", "", ""⟩) rsp cred with
    | .error f => .error f
    | .ok er => .ok (er.1, er.2, er.1.isError)
  | .destroyvolume =>
    match DestroyVolume context (req.destroyvolume.getD ⟨""⟩) rsp cred with
    | .error f => .error f
    | .ok er => .ok (er.1, er.2, er.1.isError)
  | .listvolumes => (ListVolumes context rsp).map (fun er => (er.1, er.2, true))

/-- `HandleRpcRequest` (rpc.cpp): set `error` to `Unknown`, run the `try`
block, convert a caught C++ exception into a cleared response with an
`Unknown` error, then stamp the final error pair onto the response and
return it with `send_reply`.  Undefined behaviour inside the body is not an
exception and no catch clause intercepts it: it surfaces as `.error`. -/
def HandleRpcRequest (context : TContext) (req : TContainerRequest)
    (rsp0 : TContainerResponse) (cred : TCred) :
    Except String (TContainerResponse × Bool) :=
  match dispatchBody context req { rsp0 with error := EError.Unknown } cred with
  | .ok (error, rsp, send) =>
    .ok ({ rsp with error := error.error, errorMsg := error.msg }, send)
  | .error .badAlloc =>
    .ok ({ TContainerResponse.empty with
            error := EError.Unknown,
            errorMsg := "memory allocation failure" }, true)
  | .error (.thrownString s) =>
    .ok ({ TContainerResponse.empty with
            error := EError.Unknown, errorMsg := s }, true)
  | .error (.stdException what) =>
    .ok ({ TContainerResponse.empty with
            error := EError.Unknown, errorMsg := what }, true)
  | .error .otherExc =>
    .ok ({ TContainerResponse.empty with
            error := EError.Unknown, errorMsg := "unknown error" }, true)
  | .error (.undefinedBehaviour what) => .error what


/-! ### Concrete fixtures for witnesses and counterexamples -/

/-- An unprivileged peer credential. -/
def credPlain : TCred := ⟨false⟩

/-- A kernel model whose netlink calls all succeed. -/
def kOk : TcKernel :=
  { qdiscCreateRes := fun _ => TError.Success
    qdiscRemoveRes := fun _ => TError.Success
    classCreateRes := fun _ _ _ _ => TError.Success
    classRemoveRes := fun _ => TError.Success
    classStatRes := fun _ => (TError.Success, 0)
    filterCreateRes := fun _ => TError.Success
    filterRemoveRes := fun _ => TError.Success }

/-- A context with no containers and no volumes whose holder calls succeed. -/
def ctxEmpty : TContext :=
  { cholderGet := fun _ => none
    cholderCreate := fun _ _ => .ok TError.Success
    cholderDestroy := fun _ => .ok TError.Success
    cholderList := []
    propertySet := []
    dataSet := []
    vholderGet := fun _ => none
    volumeCreate := fun _ _ => .ok TError.Success
    vholderDescriptions := []
    gitTag := "tag"
    gitRevision := "rev" }

/-- A context whose container creation throws `std::bad_alloc`. -/
def ctxBadAlloc : TContext :=
  { ctxEmpty with cholderCreate := fun _ _ => .error .badAlloc }

/-- A container whose operations all succeed; `GetProperty` yields `"42"`,
`GetData` yields `"7"`. -/
def containerOk : TContainer :=
  { checkPermission := fun _ => TError.Success
    startOp := .ok TError.Success
    stopOp := .ok TError.Success
    pauseOp := .ok TError.Success
    resumeOp := .ok TError.Success
    killOp := fun _ => .ok TError.Success
    getPropertyOp := fun _ => .ok (TError.Success, "42")
    setPropertyOp := fun _ _ _ => .ok TError.Success
    getDataOp := fun _ => .ok (TError.Success, "7") }

/-- A context in which every container lookup resolves to `containerOk`. -/
def ctxOneContainer : TContext :=
  { ctxEmpty with cholderGet := fun _ => some containerOk }

/-- A request with two one-of variants set at once. -/
def reqTwoVariants : TContainerRequest :=
  { create := some ⟨"a"⟩, destroy := some ⟨"a"⟩ }

/-- A knob write that always succeeds. -/
def okSetKnob : String → String → TError := fun _ _ => TError.Success

/-- An unresponsive freezer knob: every poll observes `"FROZEN"` (which
never equals the awaited `"FROZEN\n"`). -/
def stuckKnob : Nat → Except TError String := fun _ => .ok "FROZEN"

/-- A freezer knob that reaches the frozen state at the fourth poll. -/
def goodKnob : Nat → Except TError String :=
  fun i => if i < 3 then .ok "FREEZING\n" else .ok "FROZEN\n"


/-! ### Theorems -/

theorem RetryFailedGo_false_iff (handler : Nat → Bool) :
    ∀ (n i : Nat), RetryFailedGo handler i n = false ↔
      ∃ j, j < n ∧ handler (i + j) = false := by
  intro n
  induction n with
  | zero => intro i; simp [RetryFailedGo]
  | succ n ih =>
    intro i
    simp only [RetryFailedGo]
    cases hh : handler i with
    | false =>
      simp only [hh, Bool.false_and]
      constructor
      · intro _
        exact ⟨0, Nat.succ_pos n, by simpa using hh⟩
      · intro _
        trivial
    | true =>
      simp only [hh, Bool.true_and]
      rw [ih (i + 1)]
      constructor
      · rintro ⟨j, hj, hf⟩
        refine ⟨j + 1, by omega, ?_⟩
        have hje : i + (j + 1) = i + 1 + j := by omega
        rw [hje]
        exact hf
      · rintro ⟨j, hj, hf⟩
        cases j with
        | zero =>
          rw [Nat.add_zero] at hf
          rw [hf] at hh
          exact Bool.noConfusion hh
        | succ j =>
          refine ⟨j, by omega, ?_⟩
          have hje : i + 1 + j = i + (j + 1) := by omega
          rw [hje]
          exact hf

theorem WaitState_timeout (readKnob : Nat → Except TError String) (state : String)
    (h : ∀ i, i < FREEZER_WAIT_TIMEOUT_S * 10 → knobValue readKnob i ≠ state) :
    TFreezerSubsystem.WaitState readKnob state =
      ⟨EError.Unknown, "Can't wait for freezer state " ++ state⟩ := by
  have hb : RetryFailedGo (fun i => knobValue readKnob i != state) 0
      (FREEZER_WAIT_TIMEOUT_S * 10) = true := by
    cases hb2 : RetryFailedGo (fun i => knobValue readKnob i != state) 0
        (FREEZER_WAIT_TIMEOUT_S * 10) with
    | true => rfl
    | false =>
      obtain ⟨j, hj, hf⟩ := (RetryFailedGo_false_iff _ _ 0).mp hb2
      have hkv : knobValue readKnob j = state := by simpa using hf
      exact absurd hkv (h j hj)
  simp [TFreezerSubsystem.WaitState, RetryFailed, hb]

theorem WaitState_match (readKnob : Nat → Except TError String) (state : String)
    (h : ∃ i, i < FREEZER_WAIT_TIMEOUT_S * 10 ∧ knobValue readKnob i = state) :
    TFreezerSubsystem.WaitState readKnob state = TError.Success := by
  obtain ⟨i, hi, hk⟩ := h
  have hb : RetryFailedGo (fun i => knobValue readKnob i != state) 0
      (FREEZER_WAIT_TIMEOUT_S * 10) = false :=
    (RetryFailedGo_false_iff _ _ 0).mpr ⟨i, hi, by simpa using hk⟩
  simp [TFreezerSubsystem.WaitState, RetryFailed, hb]

/-- **C2** (amended): `Freeze`/`Unfreeze` first write `FROZEN`/`THAWED` to
the freezer knob (a failed write is returned as is), then poll
`freezer.state` at the fixed 100 ms interval for at most
`FREEZER_WAIT_TIMEOUT_S * 10` attempts: if some poll within the bound
observes the awaited string the operation succeeds, and if none does it
fails — with error kind `Unknown` (not `FreezerTimeout`) and message
`Can't wait for freezer state <state>`. -/
theorem freezer_freeze_unfreeze_poll (setKnob : String → String → TError)
    (readKnob : Nat → Except TError String) :
    (((setKnob "freezer.state" "FROZEN").isError = true →
        TFreezerSubsystem.Freeze setKnob readKnob = setKnob "freezer.state" "FROZEN") ∧
      ((setKnob "freezer.state" "FROZEN").isError = false →
        ((∃ i, i < FREEZER_WAIT_TIMEOUT_S * 10 ∧ knobValue readKnob i = "FROZEN\n") →
           TFreezerSubsystem.Freeze setKnob readKnob = TError.Success) ∧
        ((∀ i, i < FREEZER_WAIT_TIMEOUT_S * 10 → knobValue readKnob i ≠ "FROZEN\n") →
           TFreezerSubsystem.Freeze setKnob readKnob =
             ⟨EError.Unknown, "Can't wait for freezer state FROZEN\n"⟩))) ∧
    (((setKnob "freezer.state" "THAWED").isError = true →
        TFreezerSubsystem.Unfreeze setKnob readKnob = setKnob "freezer.state" "THAWED") ∧
      ((setKnob "freezer.state" "THAWED").isError = false →
        ((∃ i, i < FREEZER_WAIT_TIMEOUT_S * 10 ∧ knobValue readKnob i = "THAWED\n") →
           TFreezerSubsystem.Unfreeze setKnob readKnob = TError.Success) ∧
        ((∀ i, i < FREEZER_WAIT_TIMEOUT_S * 10 → knobValue readKnob i ≠ "THAWED\n") →
           TFreezerSubsystem.Unfreeze setKnob readKnob =
             ⟨EError.Unknown, "Can't wait for freezer state THAWED\n"⟩))) := by
  constructor
  · constructor
    · intro hw
      simp [TFreezerSubsystem.Freeze, hw]
    · intro hw
      constructor
      · intro hex
        simp only [TFreezerSubsystem.Freeze, hw, Bool.false_eq_true, if_false]
        exact WaitState_match readKnob _ hex
      · intro hnone
        simp only [TFreezerSubsystem.Freeze, hw, Bool.false_eq_true, if_false]
        exact WaitState_timeout readKnob _ hnone
  · constructor
    · intro hw
      simp [TFreezerSubsystem.Unfreeze, hw]
    · intro hw
      constructor
      · intro hex
        simp only [TFreezerSubsystem.Unfreeze, hw, Bool.false_eq_true, if_false]
        exact WaitState_match readKnob _ hex
      · intro hnone
        simp only [TFreezerSubsystem.Unfreeze, hw, Bool.false_eq_true, if_false]
        exact WaitState_timeout readKnob _ hnone

/-- **C2 witness**: with a knob that reaches `FROZEN\n` at the fourth poll,
`Freeze` succeeds. -/
theorem freezer_freeze_poll_witness :
    TFreezerSubsystem.Freeze okSetKnob goodKnob = TError.Success :=
  ((freezer_freeze_unfreeze_poll okSetKnob goodKnob).1.2 rfl).1
    ⟨3, by decide, rfl⟩

/-- **C2 counterexample**: with a knob stuck at `"FROZEN"` (never the
awaited `"FROZEN\n"`), `Freeze` times out with error kind `Unknown`, not
`FreezerTimeout` as the claim states. -/
theorem freezer_timeout_not_freezertimeout :
    (TFreezerSubsystem.Freeze okSetKnob stuckKnob).error = EError.Unknown ∧
    (TFreezerSubsystem.Freeze okSetKnob stuckKnob).error ≠ EError.FreezerTimeout := by
  have ht := WaitState_timeout stuckKnob "FROZEN\n"
    (fun i _ => by simp only [knobValue, stuckKnob]; decide)
  have h : TFreezerSubsystem.Freeze okSetKnob stuckKnob =
      ⟨EError.Unknown, "Can't wait for freezer state " ++ "FROZEN\n"⟩ := by
    simpa [TFreezerSubsystem.Freeze, okSetKnob, TError.isError, TError.Success] using ht
  rw [h]
  exact ⟨rfl, by decide⟩

/-- **C3** (code bug evidence): the factory has no `cpuacct` branch — for
`"cpuacct"` it constructs the generic adapter, never the specialised
`TCpuacctSubsystem` that `TSubsystem::Cpuacct()` casts the result to; the
specialised branches and the per-name memoisation behave as claimed. -/
theorem subsystem_get_cpuacct_generic :
    (TSubsystem.Get [] "cpuacct").2 = TSubsystemKind.generic "cpuacct" ∧
    (TSubsystem.Get [] "cpuacct").2 ≠ TSubsystemKind.cpuacct ∧
    (TSubsystem.Get [] "memory").2 = TSubsystemKind.memory ∧
    (TSubsystem.Get [] "freezer").2 = TSubsystemKind.freezer ∧
    (TSubsystem.Get [] "cpu").2 = TSubsystemKind.cpu ∧
    (TSubsystem.Get (TSubsystem.Get [] "cpuacct").1 "cpuacct").2 =
      (TSubsystem.Get [] "cpuacct").2 := by
  decide

/-- **C4 counterexample**: with networking disabled, `TTclass::GetStat` does
not return success — it returns the `Unknown` error
`"Network support is disabled"` — refuting "every traffic-control operation
returns success". -/
theorem tc_disabled_stat_not_success :
    TTclass.GetStat false ["eth0"] kOk =
      (⟨EError.Unknown, "Network support is disabled"⟩, [], []) ∧
    (TTclass.GetStat false ["eth0"] kOk).1 ≠ TError.Success := by
  constructor
  · rfl
  · intro h
    exact absurd (congrArg TError.error h) (by decide)

/-- **C4** (amended): with the network-enabled flag false, qdisc
create/remove, tclass create/remove and filter create/remove return success
and perform no kernel interaction, while `TTclass::GetStat` performs no
kernel interaction but returns the error `Unknown,
"Network support is disabled"` instead of success. -/
theorem tc_disabled_noop (links present fpresent : List String) (k : TcKernel)
    (prio rate ceil : Nat) :
    TQdisc.Create false links k = (TError.Success, []) ∧
    TQdisc.Remove false links k = (TError.Success, []) ∧
    TTclass.Create false links k prio rate ceil = (TError.Success, []) ∧
    TTclass.Remove false links k present = (TError.Success, present, []) ∧
    TTclass.GetStat false links k =
      (⟨EError.Unknown, "Network support is disabled"⟩, [], []) ∧
    TFilter.Create false links k = (TError.Success, []) ∧
    TFilter.Remove false links k fpresent = (TError.Success, fpresent, []) :=
  ⟨rfl, rfl, rfl, rfl, rfl, rfl, rfl⟩

/-- **C5 counterexample**: links `[eth0, eth1]` with the class present only
on `eth1`: `Remove` hits the missing class on `eth0` first, returns success
immediately, and never removes the class from `eth1` (on which it exists) —
refuting "removes the HTB class on every link on which it exists, skipping
only the links on which it does not exist". -/
theorem tclass_remove_early_return :
    (TTclass.Remove true ["eth0", "eth1"] kOk ["eth1"]).1 = TError.Success ∧
    "eth1" ∈ (TTclass.Remove true ["eth0", "eth1"] kOk ["eth1"]).2.1 ∧
    TcAction.classRemove "eth1" ∉ (TTclass.Remove true ["eth0", "eth1"] kOk ["eth1"]).2.2 := by
  decide

theorem RemoveGo_success_shrink (k : TcKernel)
    (hk : ∀ l, (k.classRemoveRes l).isError = false) :
    ∀ (links present : List String),
      (TTclass.RemoveGo k links present).1 = TError.Success ∧
      ∀ l, l ∈ (TTclass.RemoveGo k links present).2.1 → l ∈ present := by
  intro links
  induction links with
  | nil => intro present; exact ⟨rfl, fun l h => h⟩
  | cons a rest ih =>
    intro present
    by_cases hc : present.contains a
    · simp only [TTclass.RemoveGo, hc, Bool.not_true, Bool.false_eq_true, if_false,
        hk a]
      obtain ⟨h1, h2⟩ := ih (present.erase a)
      exact ⟨h1, fun l hl => List.mem_of_mem_erase (h2 l hl)⟩
    · simp only [Bool.not_eq_true] at hc
      simp only [TTclass.RemoveGo, hc, Bool.not_false, if_true]
      exact ⟨by trivial, fun l h => h⟩

/-- **C5** (amended): with networking enabled, `TTclass::Remove` walks the
links in order, removing the class while `Exists` holds, and returns success
immediately at the first link on which the class does not exist, leaving the
remaining links unprocessed (the counterexample exhibits the early return);
when the kernel class removal succeeds on every attempted link, `Remove`
only ever shrinks the set of links carrying the class and two consecutive
`Remove` calls both return success. -/
theorem tclass_remove_idempotent (k : TcKernel) (links present : List String)
    (hk : ∀ l, (k.classRemoveRes l).isError = false) :
    (TTclass.Remove true links k present).1 = TError.Success ∧
    (TTclass.Remove true links k (TTclass.Remove true links k present).2.1).1 =
      TError.Success ∧
    ∀ l, l ∈ (TTclass.Remove true links k present).2.1 → l ∈ present := by
  have hgo := RemoveGo_success_shrink k hk
  refine ⟨(hgo links present).1, (hgo links _).1, (hgo links present).2⟩

/-- **C5 witness**: one link carrying the class, a kernel whose removal
succeeds: `Remove` returns success. -/
theorem tclass_remove_idempotent_witness :
    (TTclass.Remove true ["eth0"] kOk ["eth0"]).1 = TError.Success :=
  (tclass_remove_idempotent kOk ["eth0"] ["eth0"] (fun _ => rfl)).1

theorem specStored_none_cons (desc : TValueDesc) (hpd : desc.parentDef = true)
    (slot : Option String) (anc : List (Option String)) :
    specStored desc (none :: slot :: anc) = specStored desc (slot :: anc) := by
  cases slot with
  | some v => simp [specStored, nearestExplicit, hpd]
  | none => simp [specStored, nearestExplicit, hpd]

theorem GetTyped_eq_spec {α : Type} (parse : String → Option α) (zero : α)
    (desc : TValueDesc) :
    ∀ (chain : List (Option String)) (slot : Option String),
      GetTyped parse zero desc (slot :: chain) =
        specGetTyped parse zero desc (slot :: chain) := by
  intro chain
  induction chain with
  | nil =>
    intro slot
    cases slot with
    | some v =>
      simp [GetTyped, specGetTyped, specStored, VariantGetTyped]
    | none =>
      cases hpd : desc.parentDef with
      | false =>
        simp [GetTyped, specGetTyped, specStored, VariantGetTyped, hpd]
      | true =>
        simp [GetTyped, specGetTyped, specStored, VariantGetTyped,
          nearestExplicit, hpd]
  | cons slot2 rest ih =>
    intro slot
    cases slot with
    | some v =>
      simp [GetTyped, specGetTyped, specStored, VariantGetTyped]
    | none =>
      cases hpd : desc.parentDef with
      | false =>
        simp [GetTyped, specGetTyped, specStored, VariantGetTyped, hpd]
      | true =>
        have h1 : GetTyped parse zero desc (none :: slot2 :: rest) =
            GetTyped parse zero desc (slot2 :: rest) := by
          simp [GetTyped, hpd]
        rw [h1, ih slot2]
        unfold specGetTyped
        rw [specStored_none_cons desc hpd slot2 rest]

/-- **C6**: each typed accessor of `TPropertyHolder` (`GetString`, `GetBool`,
`GetInt`, `GetUint`), evaluated on a container with ancestor chain
`slot :: ancestors`, equals the specification behaviour: on a *default* slot
with the *parent-default* flag the nearest ancestor's explicit value is
used (static default above the root), otherwise the stored or
static-default string; a parse failure yields the type's zero value. -/
theorem typed_accessors_follow_spec (desc : TValueDesc) (slot : Option String)
    (ancestors : List (Option String)) :
    TPropertyHolder.GetString desc (slot :: ancestors) =
      specGetTyped parseString "" desc (slot :: ancestors) ∧
    TPropertyHolder.GetBool desc (slot :: ancestors) =
      specGetTyped parseBool false desc (slot :: ancestors) ∧
    TPropertyHolder.GetInt desc (slot :: ancestors) =
      specGetTyped parseInt 0 desc (slot :: ancestors) ∧
    TPropertyHolder.GetUint desc (slot :: ancestors) =
      specGetTyped parseUint 0 desc (slot :: ancestors) :=
  ⟨GetTyped_eq_spec parseString "" desc ancestors slot,
   GetTyped_eq_spec parseBool false desc ancestors slot,
   GetTyped_eq_spec parseInt 0 desc ancestors slot,
   GetTyped_eq_spec parseUint 0 desc ancestors slot⟩

theorem enumerateNonHidden_eq_filter_map (reg : List TValueDescEntry) :
    enumerateNonHidden reg =
      (reg.filter (fun e => !e.hidden)).map (fun e => (e.name, e.desc)) := by
  induction reg with
  | nil => rfl
  | cons e rest ih =>
    cases he : e.hidden <;>
      simp [enumerateNonHidden, List.filter_cons, he, ih]


/-- **C8**: the `propertylist` and `datalist` handlers enumerate exactly the
non-hidden descriptors of their registry, in registry insertion order, each
as its `(name, description)` pair — so every descriptor with the hidden flag
is omitted from both. -/
theorem registry_enumeration_filters_hidden (context : TContext)
    (rsp : TContainerResponse) :
    ListProperty context rsp =
      .ok (TError.Success, { rsp with propertylist := some (specEnumerate context.propertySet) }) ∧
    ListData context rsp =
      .ok (TError.Success, { rsp with datalist := some (specEnumerate context.dataSet) }) := by
  constructor
  · simp only [ListProperty, specEnumerate, enumerateNonHidden_eq_filter_map]
  · simp only [ListData, specEnumerate, enumerateNonHidden_eq_filter_map]


set_option maxHeartbeats 1000000 in
theorem dispatchBody_eq_first (context : TContext) (req : TContainerRequest)
    (rsp : TContainerResponse) (cred : TCred) :
    dispatchBody context req rsp cred =
      match (requestVariants req).head? with
      | none => .ok (⟨EError.InvalidMethod, "invalid RPC method"⟩, rsp, true)
      | some m => runMethod context m req rsp cred := by
  obtain ⟨c, d, l, gp, sp, gd, st, so, pa, re, pl, dl, ki, ve, cv, dv, lv⟩ := req
  cases c with
  | some r => rfl
  | none =>
  cases d with
  | some r => rfl
  | none =>
  cases l with
  | true => rfl
  | false =>
  cases gp with
  | some r => rfl
  | none =>
  cases sp with
  | some r => rfl
  | none =>
  cases gd with
  | some r => rfl
  | none =>
  cases st with
  | some r => rfl
  | none =>
  cases so with
  | some r => rfl
  | none =>
  cases pa with
  | some r => rfl
  | none =>
  cases re with
  | some r => rfl
  | none =>
  cases pl with
  | true => rfl
  | false =>
  cases dl with
  | true => rfl
  | false =>
  cases ki with
  | some r => rfl
  | none =>
  cases ve with
  | true => rfl
  | false =>
  cases cv with
  | some r => rfl
  | none =>
  cases dv with
  | some r => rfl
  | none =>
  cases lv with
  | true => rfl
  | false => rfl

/-- **C1** (amended): the dispatcher routes every request to the handler of
the *first* set one-of variant in the fixed chain order (create, destroy,
list, getproperty, setproperty, getdata, start, stop, pause, resume,
propertylist, datalist, kill, version, createvolume, destroyvolume,
listvolumes) — so with exactly one variant set that is the matching handler —
and returns an `InvalidMethod` error response only when zero variants are
set; with several variants set it dispatches to the first, not
`InvalidMethod`. -/
theorem rpc_dispatch_first_variant (context : TContext) (req : TContainerRequest)
    (rsp : TContainerResponse) (cred : TCred) :
    (dispatchBody context req rsp cred =
      match (requestVariants req).head? with
      | none => .ok (⟨EError.InvalidMethod, "invalid RPC method"⟩, rsp, true)
      | some m => runMethod context m req rsp cred) ∧
    (requestVariants req = [] →
      HandleRpcRequest context req rsp cred =
        .ok (errorResponse rsp EError.InvalidMethod "invalid RPC method", true)) := by
  constructor
  · exact dispatchBody_eq_first context req rsp cred
  · intro h
    simp only [HandleRpcRequest]
    rw [dispatchBody_eq_first context req { rsp with error := EError.Unknown } cred, h]
    rfl

/-- **C1 witness**: the all-unset request yields the `InvalidMethod`
response. -/
theorem rpc_dispatch_first_variant_witness :
    HandleRpcRequest ctxEmpty {} TContainerResponse.empty credPlain =
      .ok (errorResponse TContainerResponse.empty EError.InvalidMethod "invalid RPC method", true) :=
  (rpc_dispatch_first_variant ctxEmpty {} TContainerResponse.empty credPlain).2 rfl

/-- **C1 counterexample**: a request with both `create` and `destroy` set is
dispatched to the `create` handler and answered `Success`, not
`InvalidMethod` as the claim requires for multiple set variants. -/
theorem rpc_dispatch_two_variants_not_invalidmethod :
    HandleRpcRequest ctxEmpty reqTwoVariants TContainerResponse.empty credPlain =
      .ok ({ TContainerResponse.empty with error := EError.Success }, true) ∧
    EError.Success ≠ EError.InvalidMethod := by
  constructor
  · rfl
  · decide

/-- **C7**: whenever the handler body raises a C++ exception (allocation
failure, a thrown string, any `std::exception`, or anything else), the
dispatcher returns normally (no exception escapes), the response is cleared
of any partial payload, and it carries error kind `Unknown` with the textual
message derived from the fault. -/
theorem dispatcher_converts_faults (context : TContext) (req : TContainerRequest)
    (rsp : TContainerResponse) (cred : TCred) (f : Fault)
    (hbody : dispatchBody context req { rsp with error := EError.Unknown } cred =
      .error f)
    (hexc : f.isException = true) :
    HandleRpcRequest context req rsp cred =
      .ok (errorResponse TContainerResponse.empty EError.Unknown (faultMsg f), true) := by
  simp only [HandleRpcRequest]
  rw [hbody]
  cases f with
  | badAlloc => rfl
  | thrownString s => rfl
  | stdException what => rfl
  | otherExc => rfl
  | undefinedBehaviour what => exact absurd hexc (by simp [Fault.isException])

/-- **C7 witness**: a create request whose holder throws `std::bad_alloc`
yields the cleared `Unknown` response. -/
theorem dispatcher_converts_faults_witness :
    HandleRpcRequest ctxBadAlloc { create := some ⟨"a"⟩ } TContainerResponse.empty credPlain =
      .ok (errorResponse TContainerResponse.empty EError.Unknown "memory allocation failure", true) :=
  dispatcher_converts_faults ctxBadAlloc { create := some ⟨"a"⟩ }
    TContainerResponse.empty credPlain .badAlloc rfl rfl

/-- **C9**: for a `destroyvolume` request naming a volume absent from the
volume holder, the source's error branch formats the message through the
null `volume` pointer; in the total embedding that branch is undefined
behaviour, so the dispatcher produces no reply at all — in particular never
a `VolumeDoesNotExist` reply. -/
theorem destroyvolume_absent_null_deref (context : TContext) (name : String)
    (rsp : TContainerResponse) (cred : TCred)
    (habsent : context.vholderGet name = none) :
    HandleRpcRequest context { destroyvolume := some ⟨name⟩ } rsp cred =
      .error "DestroyVolume: volume->GetName() on null volume" ∧
    ∀ r send, HandleRpcRequest context { destroyvolume := some ⟨name⟩ } rsp cred ≠
      .ok (r, send) := by
  have hstep : dispatchBody context { destroyvolume := some ⟨name⟩ }
      { rsp with error := EError.Unknown } cred =
      match DestroyVolume context ⟨name⟩ { rsp with error := EError.Unknown } cred with
      | .error f => .error f
      | .ok er => .ok (er.1, er.2, er.1.isError) := rfl
  have hmain : HandleRpcRequest context { destroyvolume := some ⟨name⟩ } rsp cred =
      .error "DestroyVolume: volume->GetName() on null volume" := by
    simp only [HandleRpcRequest]
    rw [hstep]
    simp only [DestroyVolume, habsent]
  refine ⟨hmain, ?_⟩
  intro r send h
  rw [hmain] at h
  exact Except.noConfusion h

/-- **C9 witness**: in the empty context every volume is absent; the
`destroyvolume` dispatch is the null-dereference crash, not a reply. -/
theorem destroyvolume_absent_null_deref_witness :
    HandleRpcRequest ctxEmpty { destroyvolume := some ⟨"v"⟩ } TContainerResponse.empty credPlain =
      .error "DestroyVolume: volume->GetName() on null volume" :=
  (destroyvolume_absent_null_deref ctxEmpty "v" TContainerResponse.empty credPlain rfl).1

/-- **C10**: the `getproperty` / `getdata` handlers put a value payload into
the response exactly when the underlying get succeeds: a returned `Success`
response carries the value, while any returned error response (including
`ContainerDoesNotExist` and converted faults) carries no `getproperty` and
no `getdata` payload. -/
theorem get_value_payload_iff_success (context : TContext)
    (name prop dname : String) (cred : TCred) :
    (∀ r send,
      HandleRpcRequest context { getproperty := some ⟨name, prop⟩ }
          TContainerResponse.empty cred = .ok (r, send) →
      (r.error = EError.Success → ∃ v, r.getproperty = some v) ∧
      (r.error ≠ EError.Success → r.getproperty = none) ∧ r.getdata = none) ∧
    (∀ r send,
      HandleRpcRequest context { getdata := some ⟨name, dname⟩ }
          TContainerResponse.empty cred = .ok (r, send) →
      (r.error = EError.Success → ∃ v, r.getdata = some v) ∧
      (r.error ≠ EError.Success → r.getdata = none) ∧ r.getproperty = none) := by
  constructor
  · intro r send h
    simp only [HandleRpcRequest] at h
    rw [show dispatchBody context { getproperty := some ⟨name, prop⟩ }
        { TContainerResponse.empty with error := EError.Unknown } cred =
        (GetContainerProperty context ⟨name, prop⟩
          { TContainerResponse.empty with error := EError.Unknown } cred).map
          (fun er => (er.1, er.2, true)) from rfl] at h
    simp only [GetContainerProperty] at h
    cases hg : context.cholderGet name with
    | none =>
      simp only [hg, Except.map] at h
      injection h with h1
      injection h1 with h2 h3
      subst h2
      exact ⟨fun heq => EError.noConfusion heq, fun _ => rfl, rfl⟩
    | some c =>
      simp only [hg] at h
      cases hop : c.getPropertyOp prop with
      | error f =>
        simp only [hop, Except.map] at h
        cases f with
        | badAlloc =>
          injection h with h1
          injection h1 with h2 h3
          subst h2
          exact ⟨fun heq => EError.noConfusion heq, fun _ => rfl, rfl⟩
        | thrownString s =>
          injection h with h1
          injection h1 with h2 h3
          subst h2
          exact ⟨fun heq => EError.noConfusion heq, fun _ => rfl, rfl⟩
        | stdException what =>
          injection h with h1
          injection h1 with h2 h3
          subst h2
          exact ⟨fun heq => EError.noConfusion heq, fun _ => rfl, rfl⟩
        | otherExc =>
          injection h with h1
          injection h1 with h2 h3
          subst h2
          exact ⟨fun heq => EError.noConfusion heq, fun _ => rfl, rfl⟩
        | undefinedBehaviour what => exact Except.noConfusion h
      | ok ev =>
        obtain ⟨e, v⟩ := ev
        cases hie : e.isError with
        | true =>
          simp only [hop, Except.map, hie] at h
          simp only [TError.isError] at hie
          injection h with h1
          injection h1 with h2 h3
          subst h2
          refine ⟨fun heq => ?_, fun _ => rfl, rfl⟩
          have heq2 : e.error = EError.Success := heq
          rw [heq2] at hie
          exact absurd hie (by decide)
        | false =>
          simp only [hop, Except.map, hie] at h
          simp only [TError.isError, bne_eq_false_iff_eq] at hie
          injection h with h1
          injection h1 with h2 h3
          subst h2
          refine ⟨fun _ => ⟨v, rfl⟩, fun hne => absurd hie hne, rfl⟩
  · intro r send h
    simp only [HandleRpcRequest] at h
    rw [show dispatchBody context { getdata := some ⟨name, dname⟩ }
        { TContainerResponse.empty with error := EError.Unknown } cred =
        (GetContainerData context ⟨name, dname⟩
          { TContainerResponse.empty with error := EError.Unknown } cred).map
          (fun er => (er.1, er.2, true)) from rfl] at h
    simp only [GetContainerData] at h
    cases hg : context.cholderGet name with
    | none =>
      simp only [hg, Except.map] at h
      injection h with h1
      injection h1 with h2 h3
      subst h2
      exact ⟨fun heq => EError.noConfusion heq, fun _ => rfl, rfl⟩
    | some c =>
      simp only [hg] at h
      cases hop : c.getDataOp dname with
      | error f =>
        simp only [hop, Except.map] at h
        cases f with
        | badAlloc =>
          injection h with h1
          injection h1 with h2 h3
          subst h2
          exact ⟨fun heq => EError.noConfusion heq, fun _ => rfl, rfl⟩
        | thrownString s =>
          injection h with h1
          injection h1 with h2 h3
          subst h2
          exact ⟨fun heq => EError.noConfusion heq, fun _ => rfl, rfl⟩
        | stdException what =>
          injection h with h1
          injection h1 with h2 h3
          subst h2
          exact ⟨fun heq => EError.noConfusion heq, fun _ => rfl, rfl⟩
        | otherExc =>
          injection h with h1
          injection h1 with h2 h3
          subst h2
          exact ⟨fun heq => EError.noConfusion heq, fun _ => rfl, rfl⟩
        | undefinedBehaviour what => exact Except.noConfusion h
      | ok ev =>
        obtain ⟨e, v⟩ := ev
        cases hie : e.isError with
        | true =>
          simp only [hop, Except.map, hie] at h
          simp only [TError.isError] at hie
          injection h with h1
          injection h1 with h2 h3
          subst h2
          refine ⟨fun heq => ?_, fun _ => rfl, rfl⟩
          have heq2 : e.error = EError.Success := heq
          rw [heq2] at hie
          exact absurd hie (by decide)
        | false =>
          simp only [hop, Except.map, hie] at h
          simp only [TError.isError, bne_eq_false_iff_eq] at hie
          injection h with h1
          injection h1 with h2 h3
          subst h2
          refine ⟨fun _ => ⟨v, rfl⟩, fun hne => absurd hie hne, rfl⟩

/-- **C10 witness**: with a container whose `GetProperty` succeeds with
`"42"`, the success response carries the `getproperty` payload. -/
theorem get_value_payload_iff_success_witness :
    ∃ v, ({ TContainerResponse.empty with error := EError.Success, getproperty := some "42" } :
      TContainerResponse).getproperty = some v :=
  (((get_value_payload_iff_success ctxOneContainer "a" "p" "d" credPlain).1
      { TContainerResponse.empty with error := EError.Success, getproperty := some "42" }
      true rfl).1) rfl
